import Mathlib

/-!
Verification of the voice session orchestrator of the Memory-Notebook
repository: the `useGeminiLive` hook (`src/unnamed/part_000`) and its use
from `src/App.tsx`.

The hook's mutable refs become fields of `HookState`; the externally
observable side effects (callback invocations, resource acquisition and
release, frames sent on the channel) become an explicit event trace
(`List Ev`) returned alongside the new state.  Times and durations are
modelled as rationals.  The decoded audio buffer is modelled by its
duration; the RMS loudness value computed for visualization (lines
277-284 of the source) is represented by the `Ev.audioLevel` event
without its numeric payload, since the spec declares the value a
presentation detail with no semantic contract.
-/

/-- Categorized errors set via `setError` in the source.  Each constructor
stands for one exact user-facing message string of the source:
`noApiKey` for line 113, `noMediaDevices` for line 122, `noWebAudio` for
line 138, `micDenied` for the DOMException NotAllowedError branch of the
catch (line 335), `micNotFound` for the NotFoundError branch (line 337),
and `connectionError` for the `onerror` callback (line 316). -/
inductive ErrMsg where
  | noApiKey
  | noMediaDevices
  | noWebAudio
  | micDenied
  | micNotFound
  | connectionError
deriving DecidableEq, Repr

/-- Hook configuration, mirroring `UseGeminiLiveConfig` (lines 22-28).
The two callback records are not part of this structure: callback
invocations are modelled as trace events, so the configuration carries
only the data fields the hook itself consumes. -/
structure Config where
  systemInstruction : Option String
  voiceName : Option String
  photoContext : Option String
deriving DecidableEq, Repr

/-- Mirrors the JS idiom `config.field || defaultValue`: `undefined` and
the empty string are both falsy and yield the default. -/
def orElseNonEmpty (o : Option String) (d : String) : String :=
  match o with
  | some s => if s = "" then d else s
  | none => d

/-- The connection request built by `ai.live.connect` at lines 183-191:
model name, response modality, voice and system instruction. -/
structure LiveRequest where
  model : String
  responseModality : String
  voiceName : String
  systemInstruction : String
deriving DecidableEq, Repr

/-- Builds the request object passed to `ai.live.connect` (lines 183-191). -/
def buildLiveRequest (cfg : Config) : LiveRequest :=
  { model := "gemini-2.5-flash-native-audio-preview-09-2025"
  , responseModality := "AUDIO"
  , voiceName := orElseNonEmpty cfg.voiceName "Kore"
  , systemInstruction := orElseNonEmpty cfg.systemInstruction
      "You are a helpful, witty, and concise AI assistant. Keep your responses short and conversational." }

/-- One scheduled playback buffer: an `AudioBufferSourceNode` registered in
`audioSourcesRef`, identified by a fresh id, together with the start time
passed to `sourceNode.start` and the decoded buffer duration. -/
structure ScheduledSource where
  id : Nat
  startAt : ℚ
  duration : ℚ
deriving DecidableEq, Repr

/-- Observable events of the session: callback invocations towards the UI
layer, resource acquisition/release actions, and frames sent on the
channel.  `stopMicStream` stands for stopping the tracks of the
`getUserMedia` stream (`stream.getTracks().forEach(t => t.stop())`); it is
part of the vocabulary so that its absence from every trace can be
stated. -/
inductive Ev where
  | userChunk (t : String)
  | aiChunk (t : String)
  | userComplete (t : String)
  | aiComplete (t : String)
  | turnDone
  | interruptedCb
  | speaking (b : Bool)
  | audioLevel
  | sourceStarted (id : Nat) (startAt d : ℚ)
  | sourceStopped (id : Nat)
  | sentFrame (session frame : Nat)
  | acquireInputCtx (id : Nat)
  | acquireOutputCtx (id : Nat)
  | acquireMicStream
  | stopMicStream
  | openSession (req : LiveRequest)
  | closeInputCtx (id : Nat)
  | closeOutputCtx (id : Nat)
  | closeSession (id : Nat)
  | errorSet (e : ErrMsg)
deriving DecidableEq, Repr

/-- One inbound `LiveServerMessage` as destructured by `onmessage`
(lines 211-309): optional user-input transcription text, optional AI
output transcription text, optional audio payload (modelled by the
decoded buffer duration), and the `turnComplete` / `interrupted`
flags. -/
structure Msg where
  inputTranscription : Option String
  outputTranscription : Option String
  audioData : Option ℚ
  turnComplete : Bool
  interrupted : Bool
deriving DecidableEq, Repr

/-- The hook's mutable state: the React refs and state cells of
`useGeminiLive` (lines 47-65), plus ghost instrumentation.
`micStreamLive` records whether a `getUserMedia` stream has been acquired
and not stopped (the source keeps the stream in a local variable of
`connect`, so no ref exists for it); `audioHandlerInstalled` records
whether `scriptProcessor.onaudioprocess` has been assigned (done in
`onopen`, lines 199-209); `sessionsOpened` counts calls to the external
`ai.live.connect`; `nextSrcId`/`nextResId` generate fresh identities for
source nodes and for contexts/sessions. -/
structure HookState where
  isConnected : Bool
  isConnecting : Bool
  error : Option ErrMsg
  inputCtx : Option Nat
  outputCtx : Option Nat
  inputAnalyser : Option Nat
  outputAnalyser : Option Nat
  nextStartTime : ℚ
  audioSources : List ScheduledSource
  nextSrcId : Nat
  sessionPromise : Option Nat
  currentSession : Option Nat
  currentUserText : String
  currentAiText : String
  configRef : Config
  micStreamLive : Bool
  audioHandlerInstalled : Bool
  sessionsOpened : Nat
  nextResId : Nat
deriving DecidableEq, Repr

/-- The initial state of the hook: all refs null/empty, cursor 0. -/
def initState : HookState :=
  { isConnected := false
  , isConnecting := false
  , error := none
  , inputCtx := none
  , outputCtx := none
  , inputAnalyser := none
  , outputAnalyser := none
  , nextStartTime := 0
  , audioSources := []
  , nextSrcId := 0
  , sessionPromise := none
  , currentSession := none
  , currentUserText := ""
  , currentAiText := ""
  , configRef := ⟨none, none, none⟩
  , micStreamLive := false
  , audioHandlerInstalled := false
  , sessionsOpened := 0
  , nextResId := 0 }

/-- Section 1 of `onmessage` (lines 215-219): append user input
transcription to the user buffer and invoke `onUserTranscriptionChunk`. -/
def userTranscriptionStep (m : Msg) (s : HookState) : HookState × List Ev :=
  match m.inputTranscription with
  | some t => ({ s with currentUserText := s.currentUserText ++ t }, [Ev.userChunk t])
  | none => (s, [])

/-- Section 2 of `onmessage` (lines 225-229): append AI output
transcription to the AI buffer and invoke `onAiTranscriptionChunk`. -/
def aiTranscriptionStep (m : Msg) (s : HookState) : HookState × List Ev :=
  match m.outputTranscription with
  | some t => ({ s with currentAiText := s.currentAiText ++ t }, [Ev.aiChunk t])
  | none => (s, [])

/-- Lines 235-239: when AI audio arrives, if the accumulated user text is
non-empty (JS truthiness of a string) and the active source set is empty,
emit the user text as a finalized user turn and clear the buffer. -/
def userTurnCloseStep (s : HookState) : HookState × List Ev :=
  if s.currentUserText ≠ "" ∧ s.audioSources = [] then
    ({ s with currentUserText := "" }, [Ev.userComplete s.currentUserText])
  else (s, [])

/-- Lines 244-284: the playback scheduling core.  Signal speaking when the
active set was empty; clamp the cursor to `now` (`nextStartTimeRef.current
= Math.max(nextStartTimeRef.current, ctx.currentTime)`, line 249); start
the new source node at the clamped cursor (line 271), register it (line
272), advance the cursor by the buffer duration (line 275), and report the
visualization audio level (lines 277-284). -/
def scheduleStep (now d : ℚ) (s : HookState) : HookState × List Ev :=
  let e0 := if s.audioSources = [] then [Ev.speaking true] else []
  let startAt := max s.nextStartTime now
  let sid := s.nextSrcId
  ({ s with audioSources := s.audioSources ++ [⟨sid, startAt, d⟩]
          , nextSrcId := sid + 1
          , nextStartTime := startAt + d }
  , e0 ++ [Ev.sourceStarted sid startAt d, Ev.audioLevel])

/-- Section 4 of `onmessage` (lines 288-293): on `turnComplete`, emit the
accumulated AI text via `onAiTranscriptionComplete`, invoke
`onTurnComplete`, and clear the AI buffer. -/
def turnCompleteStep (s : HookState) : HookState × List Ev :=
  ({ s with currentAiText := "" }
  , [Ev.aiComplete s.currentAiText, Ev.turnDone])

/-- Section 5 of `onmessage` (lines 296-308): on `interrupted`, stop every
source in the active set, clear the set, reset the cursor to 0, discard
the AI buffer, and invoke `onInterrupted` and `onSpeakingStateChange
false`. -/
def interruptStep (s : HookState) : HookState × List Ev :=
  ({ s with audioSources := [], nextStartTime := 0, currentAiText := "" }
  , s.audioSources.map (fun src => Ev.sourceStopped src.id)
      ++ [Ev.interruptedCb, Ev.speaking false])

/-- The `onmessage` handler (lines 211-309).  Sections run in source
order: user transcription, AI transcription, audio handling, turn
completion, interruption.  Inside the audio section, when the output
context ref is null the handler returns early (`if (!ctx) return`, line
241), skipping the turn-complete and interruption sections of the same
message.  `now` is the value of `ctx.currentTime` when the message is
processed. -/
def onmessage (now : ℚ) (m : Msg) (s : HookState) : HookState × List Ev :=
  let p1 := userTranscriptionStep m s
  let p2 := aiTranscriptionStep m p1.1
  match m.audioData with
  | some d =>
    let p3 := userTurnCloseStep p2.1
    match p3.1.outputCtx with
    | none => (p3.1, p1.2 ++ p2.2 ++ p3.2)
    | some _ =>
      let p4 := scheduleStep now d p3.1
      let p5 := if m.turnComplete then turnCompleteStep p4.1 else (p4.1, [])
      let p6 := if m.interrupted then interruptStep p5.1 else (p5.1, [])
      (p6.1, p1.2 ++ p2.2 ++ p3.2 ++ p4.2 ++ p5.2 ++ p6.2)
  | none =>
    let p5 := if m.turnComplete then turnCompleteStep p2.1 else (p2.1, [])
    let p6 := if m.interrupted then interruptStep p5.1 else (p5.1, [])
    (p6.1, p1.2 ++ p2.2 ++ p5.2 ++ p6.2)

/-- The `ended` listener attached to each source node (lines 263-269):
remove the node from the active set and, when the set becomes empty,
signal that the AI stopped speaking. -/
def onSourceEnded (id : Nat) (s : HookState) : HookState × List Ev :=
  let s1 := { s with audioSources := s.audioSources.filter (fun src => src.id ≠ id) }
  (s1, if s1.audioSources = [] then [Ev.speaking false] else [])

/-- The `cleanup` routine (lines 68-109), in source order: stop every
playing source and clear the set; close and null both audio contexts;
null the analysers; close and null the session; clear both transcript
buffers; null the session promise; set connection flags false; reset the
cursor to 0.  Note that `cleanup` does not touch the error slot, the
stored config, or the `getUserMedia` stream (which is a local variable of
`connect` and unreachable from here). -/
def cleanup (s : HookState) : HookState × List Ev :=
  let stopEvs := s.audioSources.map (fun src => Ev.sourceStopped src.id)
  let inEvs := match s.inputCtx with
    | some i => [Ev.closeInputCtx i]
    | none => []
  let outEvs := match s.outputCtx with
    | some i => [Ev.closeOutputCtx i]
    | none => []
  let sessEvs := match s.currentSession with
    | some i => [Ev.closeSession i]
    | none => []
  ({ s with audioSources := []
          , inputCtx := none
          , outputCtx := none
          , inputAnalyser := none
          , outputAnalyser := none
          , currentSession := none
          , currentUserText := ""
          , currentAiText := ""
          , sessionPromise := none
          , isConnected := false
          , isConnecting := false
          , nextStartTime := 0 }
  , stopEvs ++ inEvs ++ outEvs ++ sessEvs)

/-- `disconnect` (lines 352-354) just calls `cleanup`. -/
def disconnect (s : HookState) : HookState × List Ev :=
  cleanup s

/-- The catch block of `connect` (lines 327-349): set the categorized
error message, then run `cleanup`.  `acc` is the trace accumulated before
the exception was thrown. -/
def catchPath (s : HookState) (e : ErrMsg) (acc : List Ev) : HookState × List Ev :=
  let s1 := { s with error := some e }
  let p := cleanup s1
  (p.1, acc ++ [Ev.errorSet e] ++ p.2)

/-- Result of `navigator.mediaDevices.getUserMedia`. -/
inductive MicRes where
  | ok
  | notAllowed
  | notFound
deriving DecidableEq, Repr

/-- The host environment probed by `connect`: presence of the API key,
of the mediaDevices API, of an AudioContext class, and the outcome of the
microphone permission request. -/
structure Env where
  hasApiKey : Bool
  hasMediaDevices : Bool
  hasAudioContextClass : Bool
  userMedia : MicRes
deriving DecidableEq, Repr

/-- The `connect` function (lines 111-350).  In source order: abort with
`noApiKey` if the API key is missing (line 112); store the config in
`configRef` (line 118); abort with `noMediaDevices` if the mediaDevices
API is missing (line 121); enter the try block: set `isConnecting`, clear
the error, reset both transcript buffers (lines 127-132); throw
`noWebAudio` if no AudioContext class exists (line 137); create the input
and output audio contexts and their analysers (lines 141-157); request
the microphone (line 161; a rejection lands in the catch block as
`micDenied`/`micNotFound`); set up the input pipeline with the
audio-process handler still unassigned (lines 170-176, the handler is
assigned only in `onopen`); call `ai.live.connect` with the request of
`buildLiveRequest` and store the session promise and session (lines
183-325).  The source performs no check of `isConnecting`/`isConnected`
before any of this. -/
def connect (env : Env) (cfg : Config) (s : HookState) : HookState × List Ev :=
  if env.hasApiKey = false then
    ({ s with error := some ErrMsg.noApiKey }, [Ev.errorSet ErrMsg.noApiKey])
  else
    let s0 := { s with configRef := cfg }
    if env.hasMediaDevices = false then
      ({ s0 with error := some ErrMsg.noMediaDevices }, [Ev.errorSet ErrMsg.noMediaDevices])
    else
      let s1 := { s0 with isConnecting := true
                        , error := none
                        , currentUserText := ""
                        , currentAiText := "" }
      if env.hasAudioContextClass = false then
        catchPath s1 ErrMsg.noWebAudio []
      else
        let iid := s1.nextResId
        let oid := s1.nextResId + 1
        let s2 := { s1 with inputCtx := some iid
                          , outputCtx := some oid
                          , inputAnalyser := some iid
                          , outputAnalyser := some oid
                          , nextResId := s1.nextResId + 2 }
        let acqEvs := [Ev.acquireInputCtx iid, Ev.acquireOutputCtx oid]
        match env.userMedia with
        | MicRes.notAllowed => catchPath s2 ErrMsg.micDenied acqEvs
        | MicRes.notFound => catchPath s2 ErrMsg.micNotFound acqEvs
        | MicRes.ok =>
          let s3 := { s2 with micStreamLive := true
                            , audioHandlerInstalled := false }
          let sid := s3.nextResId
          let s4 := { s3 with sessionPromise := some sid
                            , currentSession := some sid
                            , sessionsOpened := s3.sessionsOpened + 1
                            , nextResId := s3.nextResId + 1 }
          (s4, acqEvs ++ [Ev.acquireMicStream, Ev.openSession (buildLiveRequest cfg)])

/-- The `onopen` callback (lines 193-209): mark the session connected and
assign `scriptProcessor.onaudioprocess`. -/
def onopen (s : HookState) : HookState :=
  { s with isConnected := true, isConnecting := false, audioHandlerInstalled := true }

/-- One firing of `scriptProcessor.onaudioprocess` with a captured frame
(lines 199-209).  Before `onopen` the handler property is unassigned, so
the frame is ignored.  Once assigned, the body sends the frame only under
the guard `if (sessionPromiseRef.current)` (line 204); with the ref null
the frame is silently dropped.  The function is total: no path throws. -/
def audioFrameEvent (s : HookState) (frame : Nat) : HookState × List Ev :=
  if s.audioHandlerInstalled then
    match s.sessionPromise with
    | some sid => (s, [Ev.sentFrame sid frame])
    | none => (s, [])
  else (s, [])

/-- A message carrying only an audio payload of duration `d`. -/
def audioMsg (d : ℚ) : Msg :=
  { inputTranscription := none
  , outputTranscription := none
  , audioData := some d
  , turnComplete := false
  , interrupted := false }

/-- A message carrying only the `interrupted` flag. -/
def interruptMsg : Msg :=
  { inputTranscription := none
  , outputTranscription := none
  , audioData := none
  , turnComplete := false
  , interrupted := true }

/-- A message carrying only the `turnComplete` flag. -/
def turnCompleteMsg : Msg :=
  { inputTranscription := none
  , outputTranscription := none
  , audioData := none
  , turnComplete := true
  , interrupted := false }

/-- A message carrying only user-input transcription text. -/
def userChunkMsg (t : String) : Msg :=
  { inputTranscription := some t
  , outputTranscription := none
  , audioData := none
  , turnComplete := false
  , interrupted := false }

/-- Events produced by running `onmessage` over a list of audio-only
messages, each given as an (arrival time, duration) pair. -/
def runAudioEvents (s : HookState) : List (ℚ × ℚ) → List Ev
  | [] => []
  | a :: rest =>
    let p := onmessage a.1 (audioMsg a.2) s
    p.2 ++ runAudioEvents p.1 rest

/-- The start times among a list of events, in order. -/
def startsIn (evs : List Ev) : List ℚ :=
  evs.filterMap (fun e => match e with
    | Ev.sourceStarted _ t _ => some t
    | _ => none)

/-- The start times the scheduler of `onmessage` assigns to a run of
audio chunks, as a recurrence on the cursor: each chunk starts at
`max cursor now` and advances the cursor by its duration (lines 249,
271, 275). -/
def startTimes (cursor : ℚ) : List (ℚ × ℚ) → List ℚ
  | [] => []
  | a :: rest => max cursor a.1 :: startTimes (max cursor a.1 + a.2) rest

/-! ### Helper lemmas -/

lemma startsIn_append (a b : List Ev) : startsIn (a ++ b) = startsIn a ++ startsIn b := by
  simp [startsIn]

lemma onmessage_audio_sched (s : HookState) (now d : ℚ) (h : s.outputCtx.isSome) :
    (onmessage now (audioMsg d) s).1.outputCtx = s.outputCtx ∧
    (onmessage now (audioMsg d) s).1.nextStartTime = max s.nextStartTime now + d ∧
    startsIn (onmessage now (audioMsg d) s).2 = [max s.nextStartTime now] := by
  obtain ⟨c, hc⟩ := Option.isSome_iff_exists.mp h
  by_cases hu : s.currentUserText = "" <;>
    by_cases he : s.audioSources = [] <;>
      simp [onmessage, audioMsg, userTranscriptionStep, aiTranscriptionStep,
        userTurnCloseStep, scheduleStep, startsIn, hu, he, hc]

lemma startTimes_length (c : ℚ) (arr : List (ℚ × ℚ)) :
    (startTimes c arr).length = arr.length := by
  induction arr generalizing c with
  | nil => simp [startTimes]
  | cons a rest ih => simp [startTimes, ih]

lemma runAudioEvents_starts (s : HookState) (h : s.outputCtx.isSome) (arr : List (ℚ × ℚ)) :
    startsIn (runAudioEvents s arr) = startTimes s.nextStartTime arr := by
  induction arr generalizing s with
  | nil => simp [runAudioEvents, startsIn, startTimes]
  | cons a rest ih =>
    obtain ⟨h1, h2, h3⟩ := onmessage_audio_sched s a.1 a.2 h
    have h' : (onmessage a.1 (audioMsg a.2) s).1.outputCtx.isSome := by
      rw [h1]; exact h
    simp [runAudioEvents, startsIn_append, h3, startTimes, ih _ h', h2]

lemma startTimes_recurrence (arr : List (ℚ × ℚ)) :
    ∀ (c : ℚ) (i : ℕ) (hi : i + 1 < arr.length)
      (hl : i + 1 < (startTimes c arr).length),
      (startTimes c arr)[i + 1] = max (arr[i + 1]).1 ((startTimes c arr)[i] + (arr[i]).2) := by
  induction arr with
  | nil => intro c i hi hl; simp at hi
  | cons a rest ih =>
    intro c i hi hl
    cases i with
    | zero =>
      cases rest with
      | nil => simp at hi
      | cons b rest' =>
        simp [startTimes]
        rw [max_comm]
    | succ j =>
      have hi' : j + 1 < rest.length := by simpa using hi
      have hl' : j + 1 < (startTimes (max c a.1 + a.2) rest).length := by
        rw [startTimes_length]; exact hi'
      simpa only [startTimes, List.getElem_cons_succ] using ih (max c a.1 + a.2) j hi' hl'

/-! ### C1: gapless, non-overlapping playback scheduling -/

/-- C1: for every run of decoded audio buffers (arrival time, duration)
processed by `onmessage`, the assigned start times are exactly those of
the `max(cursor, now)` recurrence: the trace of `sourceStarted` events
matches `startTimes`, and `startTimes` satisfies
`start(i+1) = max(now(i+1), start(i) + d(i))`, hence
`start(i+1) ≥ start(i) + d(i)`: no two buffers overlap, and no gap is
introduced when delivery is timely. -/
theorem gapless_nonoverlapping_scheduling (s : HookState) (h : s.outputCtx.isSome)
    (arr : List (ℚ × ℚ)) :
    startsIn (runAudioEvents s arr) = startTimes s.nextStartTime arr ∧
    ∀ (i : ℕ) (hi : i + 1 < arr.length)
      (hl : i + 1 < (startTimes s.nextStartTime arr).length),
      (startTimes s.nextStartTime arr)[i + 1] =
          max (arr[i + 1]).1 ((startTimes s.nextStartTime arr)[i] + (arr[i]).2) ∧
      (startTimes s.nextStartTime arr)[i] + (arr[i]).2 ≤
          (startTimes s.nextStartTime arr)[i + 1] := by
  refine ⟨runAudioEvents_starts s h arr, fun i hi hl => ?_⟩
  have hrec := startTimes_recurrence arr s.nextStartTime i hi hl
  exact ⟨hrec, by rw [hrec]; exact le_max_right _ _⟩

/-- Witness for C1, replaying the spec scenario: chunks of durations 1.0
and 1.5 arriving at t = 0 and t = 0.2 with cursor 0 start at 0.0 and 1.0
(not 0.2), and the cursor ends at 2.5. -/
theorem gapless_nonoverlapping_scheduling_witness :
    (({ initState with outputCtx := some 0 } : HookState).outputCtx.isSome) ∧
    startsIn (runAudioEvents { initState with outputCtx := some 0 } [(0, 1), (1/5, 3/2)]) =
      startTimes ({ initState with outputCtx := some 0 } : HookState).nextStartTime
        [(0, 1), (1/5, 3/2)] ∧
    startTimes (0 : ℚ) [(0, 1), (1/5, 3/2)] = [0, 1] ∧
    (onmessage (1/5) (audioMsg (3/2))
      (onmessage 0 (audioMsg 1) { initState with outputCtx := some 0 }).1).1.nextStartTime = 5/2 := by
  refine ⟨rfl,
    (gapless_nonoverlapping_scheduling { initState with outputCtx := some 0 } rfl
      [(0, 1), (1/5, 3/2)]).1, ?_, ?_⟩
  · norm_num [startTimes, max_def]
  · norm_num [onmessage, audioMsg, userTranscriptionStep, aiTranscriptionStep,
      userTurnCloseStep, scheduleStep, initState, max_def]

/-! ### C2: interruption resets the timeline and discards uncommitted output -/

/-- C2: on an `interrupted` message, every buffer in the active set is
stopped and the set becomes empty, the cursor is reset to 0, and the
partial AI transcript is cleared without an `aiComplete` emission; a
subsequent audio chunk is then scheduled at the current time `nowNext`
(not at a previously scheduled future time). -/
theorem interruption_resets_timeline (s : HookState) (now : ℚ) :
    (onmessage now interruptMsg s).1 =
      { s with audioSources := [], nextStartTime := 0, currentAiText := "" } ∧
    (onmessage now interruptMsg s).2 =
      s.audioSources.map (fun src => Ev.sourceStopped src.id) ++
        [Ev.interruptedCb, Ev.speaking false] ∧
    (∀ t, Ev.aiComplete t ∉ (onmessage now interruptMsg s).2) ∧
    (∀ (nowNext d : ℚ), 0 ≤ nowNext → (onmessage now interruptMsg s).1.outputCtx.isSome →
      startsIn (onmessage nowNext (audioMsg d) (onmessage now interruptMsg s).1).2 = [nowNext]) := by
  have hstate : (onmessage now interruptMsg s).1 =
      { s with audioSources := [], nextStartTime := 0, currentAiText := "" } := by
    simp [onmessage, interruptMsg, userTranscriptionStep, aiTranscriptionStep, interruptStep]
  refine ⟨hstate, ?_, ?_, ?_⟩
  · simp [onmessage, interruptMsg, userTranscriptionStep, aiTranscriptionStep, interruptStep]
  · intro t
    simp [onmessage, interruptMsg, userTranscriptionStep, aiTranscriptionStep, interruptStep,
      List.mem_append, List.mem_map]
  · intro nowNext d hge hsome
    have h3 := (onmessage_audio_sched _ nowNext d hsome).2.2
    rw [h3, hstate]
    simp [max_eq_right hge]

/-- A session state with two scheduled buffers, a future cursor and a
partial AI answer, used to exercise the interruption theorem. -/
def interruptExState : HookState :=
  { initState with outputCtx := some 7
                 , audioSources := [⟨0, 0, 1⟩, ⟨1, 1, 2⟩]
                 , nextStartTime := 3
                 , currentAiText := "partial answer" }

/-- Witness for C2: with two active buffers and cursor 3, interruption
stops both buffers, and the next chunk at time 2 starts at 2, not at the
stale cursor 3. -/
theorem interruption_resets_timeline_witness :
    (0 : ℚ) ≤ 2 ∧
    (onmessage 5 interruptMsg interruptExState).1.outputCtx.isSome ∧
    (onmessage 5 interruptMsg interruptExState).2 =
      [Ev.sourceStopped 0, Ev.sourceStopped 1, Ev.interruptedCb, Ev.speaking false] ∧
    startsIn (onmessage 2 (audioMsg 1) (onmessage 5 interruptMsg interruptExState).1).2 = [2] := by
  have h := interruption_resets_timeline interruptExState 5
  exact ⟨by norm_num, by rw [h.1]; rfl,
    by rw [h.2.1]; rfl,
    h.2.2.2 2 1 (by norm_num) (by rw [h.1]; rfl)⟩

/-! ### C3: implicit user-turn boundary -/

/-- C3: when an audio chunk arrives while the active playback set is
empty and the user transcript buffer is non-empty, the buffer is emitted
as a finalized user turn (`userComplete`) before the chunk is scheduled
(`sourceStarted`), and the buffer is cleared; with an empty user buffer
no user turn is emitted. -/
theorem implicit_user_turn_boundary (s : HookState) (now d : ℚ) (c : Nat)
    (hctx : s.outputCtx = some c) (hempty : s.audioSources = []) :
    (s.currentUserText ≠ "" →
      onmessage now (audioMsg d) s =
        ({ s with currentUserText := ""
                , audioSources := [⟨s.nextSrcId, max s.nextStartTime now, d⟩]
                , nextSrcId := s.nextSrcId + 1
                , nextStartTime := max s.nextStartTime now + d }
        , [Ev.userComplete s.currentUserText, Ev.speaking true,
           Ev.sourceStarted s.nextSrcId (max s.nextStartTime now) d, Ev.audioLevel])) ∧
    (s.currentUserText = "" →
      ∀ t, Ev.userComplete t ∉ (onmessage now (audioMsg d) s).2) := by
  constructor
  · intro hne
    simp [onmessage, audioMsg, userTranscriptionStep, aiTranscriptionStep,
      userTurnCloseStep, scheduleStep, hne, hempty, hctx]
  · intro heq t
    simp [onmessage, audioMsg, userTranscriptionStep, aiTranscriptionStep,
      userTurnCloseStep, scheduleStep, heq, hempty, hctx]

/-- The state reached after the user spoke three `hi` transcript chunks
while no AI audio is active. -/
def userSpokeState : HookState :=
  { initState with outputCtx := some 0, currentUserText := "hihihi" }

/-- Witness for C3, replaying the spec scenario: three user transcript
chunks accumulate, and the first AI audio chunk emits the user turn to
history before the chunk is scheduled. -/
theorem implicit_user_turn_boundary_witness :
    (onmessage 0 (userChunkMsg "hi")
      ((onmessage 0 (userChunkMsg "hi")
        ((onmessage 0 (userChunkMsg "hi")
          { initState with outputCtx := some 0 }).1)).1)).1 = userSpokeState ∧
    userSpokeState.outputCtx = some 0 ∧
    userSpokeState.audioSources = [] ∧
    userSpokeState.currentUserText ≠ "" ∧
    (onmessage 1 (audioMsg 1) userSpokeState).2 =
      [Ev.userComplete "hihihi", Ev.speaking true, Ev.sourceStarted 0 1 1, Ev.audioLevel] := by
  refine ⟨by rfl, rfl, rfl, by decide, ?_⟩
  have h := (implicit_user_turn_boundary userSpokeState 1 1 0 rfl rfl).1 (by decide)
  rw [h]
  norm_num [userSpokeState, initState, max_def]

/-! ### C4: at-most-once emission and turn-complete semantics -/

/-- Number of `aiComplete` emissions in a trace. -/
def countAiComplete (evs : List Ev) : ℕ :=
  evs.countP (fun e => match e with | Ev.aiComplete _ => true | _ => false)

/-- Number of `userComplete` emissions in a trace. -/
def countUserComplete (evs : List Ev) : ℕ :=
  evs.countP (fun e => match e with | Ev.userComplete _ => true | _ => false)

lemma countP_stops_ai_zero (l : List ScheduledSource) :
    List.countP ((fun e => match e with | Ev.aiComplete _ => true | _ => false) ∘
      fun src => Ev.sourceStopped src.id) l = 0 := by
  simp [List.countP_eq_zero]

lemma countP_stops_user_zero (l : List ScheduledSource) :
    List.countP ((fun e => match e with | Ev.userComplete _ => true | _ => false) ∘
      fun src => Ev.sourceStopped src.id) l = 0 := by
  simp [List.countP_eq_zero]

set_option maxHeartbeats 1000000 in
/-- C4: processing any single message emits each transcript buffer to
history at most once, and whenever a buffer is emitted the same atomic
step leaves that buffer empty, so no chunk appended afterwards belongs to
the emitted turn; a `turnComplete` message emits the full accumulated AI
text (regardless of whether it is empty), invokes `onTurnComplete`, and
clears the AI buffer. -/
theorem turn_complete_emission (now : ℚ) (m : Msg) (s : HookState) :
    countAiComplete (onmessage now m s).2 ≤ 1 ∧
    countUserComplete (onmessage now m s).2 ≤ 1 ∧
    (∀ t, Ev.aiComplete t ∈ (onmessage now m s).2 → (onmessage now m s).1.currentAiText = "") ∧
    (∀ t, Ev.userComplete t ∈ (onmessage now m s).2 → (onmessage now m s).1.currentUserText = "") ∧
    onmessage now turnCompleteMsg s =
      ({ s with currentAiText := "" }, [Ev.aiComplete s.currentAiText, Ev.turnDone]) := by
  obtain ⟨it, ot, ad, tc, ir⟩ := m
  refine ⟨?_, ?_, ?_, ?_, ?_⟩
  case refine_5 =>
    simp [onmessage, turnCompleteMsg, userTranscriptionStep, aiTranscriptionStep, turnCompleteStep]
  all_goals
    cases it <;> cases ot <;> cases ad <;> cases tc <;> cases ir <;>
      simp only [onmessage, userTranscriptionStep, aiTranscriptionStep, userTurnCloseStep,
        scheduleStep, turnCompleteStep, interruptStep] <;>
      repeat' split
  all_goals
    simp_all [countAiComplete, countUserComplete, List.countP_append, List.countP_cons,
      List.mem_append, List.mem_map, countP_stops_ai_zero, countP_stops_user_zero]

/-- Witness for C4: a `turnComplete` message with accumulated AI text
emits that text exactly once and clears the buffer; with an empty buffer
it still emits (the empty string). -/
theorem turn_complete_emission_witness :
    onmessage 0 turnCompleteMsg { initState with currentAiText := "The answer" } =
      ({ initState with currentAiText := "" }, [Ev.aiComplete "The answer", Ev.turnDone]) ∧
    onmessage 0 turnCompleteMsg initState = (initState, [Ev.aiComplete "", Ev.turnDone]) ∧
    countAiComplete (onmessage 0 turnCompleteMsg
      { initState with currentAiText := "The answer" }).2 ≤ 1 ∧
    (onmessage 0 turnCompleteMsg
      { initState with currentAiText := "The answer" }).1.currentAiText = "" := by
  have h := turn_complete_emission 0 turnCompleteMsg { initState with currentAiText := "The answer" }
  have h0 := turn_complete_emission 0 turnCompleteMsg initState
  refine ⟨?_, ?_, h.1, h.2.2.1 "The answer" ?_⟩
  · rw [h.2.2.2.2]
  · rw [h0.2.2.2.2]
    rfl
  · rw [h.2.2.2.2]
    simp

/-! ### C5: single in-flight connection -/

/-- An environment in which every probe of `connect` succeeds. -/
def goodEnv : Env :=
  { hasApiKey := true, hasMediaDevices := true, hasAudioContextClass := true
  , userMedia := MicRes.ok }

/-- A configuration with every optional field absent. -/
def emptyCfg : Config := ⟨none, none, none⟩

/-- Recognizes a `closeSession` event. -/
def isCloseSessionEv : Ev → Bool := fun e =>
  match e with
  | Ev.closeSession _ => true
  | _ => false

/-- Counterexample to C5: after a first `connect` the session is
CONNECTING (`isConnecting = true`) with one session opened, yet a second
call to `connect` is not a no-op: it runs the full sequence again, opens
a second concurrent session (`sessionsOpened = 2`), and never closes the
first one. -/
theorem connect_second_call_not_noop :
    ((connect goodEnv emptyCfg initState).1.isConnecting = true) ∧
    ((connect goodEnv emptyCfg initState).1.sessionsOpened = 1) ∧
    ((connect goodEnv emptyCfg (connect goodEnv emptyCfg initState).1).1.sessionsOpened = 2) ∧
    ((connect goodEnv emptyCfg (connect goodEnv emptyCfg initState).1).2.countP isCloseSessionEv = 0) ∧
    ((connect goodEnv emptyCfg (connect goodEnv emptyCfg initState).1).2 ≠ []) := by
  refine ⟨rfl, rfl, rfl, rfl, ?_⟩
  simp [connect, goodEnv, emptyCfg, initState]

/-- C5 (amended): `connect` performs no in-flight guard whatsoever: from
any state — including one where a connection attempt is in flight or
established — a call with a working environment opens one more session,
closes none, and overwrites the session promise ref. -/
theorem connect_no_inflight_guard (cfg : Config) (s : HookState) :
    (connect goodEnv cfg s).1.sessionsOpened = s.sessionsOpened + 1 ∧
    (connect goodEnv cfg s).2.countP isCloseSessionEv = 0 ∧
    (connect goodEnv cfg s).1.sessionPromise = some (s.nextResId + 2) := by
  simp [connect, goodEnv, isCloseSessionEv]

/-! ### C6: pre-handshake send safety -/

/-- C6: an audio frame produced before the channel reports opened (the
`onaudioprocess` handler is only assigned in `onopen`, so it is not
installed, and `connect` itself leaves it uninstalled) or after the
channel is closed (cleanup nulls the session promise) is silently
dropped: the state is returned unchanged — nothing is queued or retried —
and no `sentFrame` event occurs; the embedded handler is a total
function, so no path throws. -/
theorem pre_handshake_send_safety :
    (∀ (s : HookState) (f : Nat), s.audioHandlerInstalled = false →
      audioFrameEvent s f = (s, [])) ∧
    (∀ (s : HookState) (f : Nat), s.sessionPromise = none →
      audioFrameEvent s f = (s, [])) ∧
    (∀ (cfg : Config) (s : HookState),
      (connect goodEnv cfg s).1.audioHandlerInstalled = false) ∧
    (∀ (s : HookState) (f : Nat),
      audioFrameEvent (cleanup s).1 f = ((cleanup s).1, [])) := by
  refine ⟨?_, ?_, ?_, ?_⟩
  · intro s f h
    simp [audioFrameEvent, h]
  · intro s f h
    by_cases hi : s.audioHandlerInstalled <;> simp [audioFrameEvent, h, hi]
  · intro cfg s
    simp [connect, goodEnv]
  · intro s f
    by_cases hi : (cleanup s).1.audioHandlerInstalled <;>
      simp [audioFrameEvent, hi, cleanup]

/-- Witness for C6: a frame arriving in the fresh state (handler not yet
installed) is dropped, and a frame arriving after connect-open-cleanup is
dropped. -/
theorem pre_handshake_send_safety_witness :
    initState.audioHandlerInstalled = false ∧
    audioFrameEvent initState 7 = (initState, []) ∧
    (cleanup (onopen (connect goodEnv emptyCfg initState).1)).1.sessionPromise = none ∧
    audioFrameEvent (cleanup (onopen (connect goodEnv emptyCfg initState).1)).1 7 =
      ((cleanup (onopen (connect goodEnv emptyCfg initState).1)).1, []) :=
  ⟨rfl, pre_handshake_send_safety.1 initState 7 rfl, rfl,
    pre_handshake_send_safety.2.2.2 (onopen (connect goodEnv emptyCfg initState).1) 7⟩

/-! ### C7: cleanup is idempotent -/

/-- C7: calling `disconnect` on an already cleaned-up state is a complete
no-op — the state is unchanged and the second call performs no side
effects (empty trace: no stops, no closes) — and a single cleanup leaves
the terminal state: no sources, no contexts, no analysers, no session,
cleared transcript buffers, cursor 0, status idle. -/
theorem cleanup_idempotent (s : HookState) :
    disconnect (disconnect s).1 = ((disconnect s).1, []) ∧
    (disconnect s).1.audioSources = [] ∧
    (disconnect s).1.inputCtx = none ∧
    (disconnect s).1.outputCtx = none ∧
    (disconnect s).1.inputAnalyser = none ∧
    (disconnect s).1.outputAnalyser = none ∧
    (disconnect s).1.currentSession = none ∧
    (disconnect s).1.sessionPromise = none ∧
    (disconnect s).1.currentUserText = "" ∧
    (disconnect s).1.currentAiText = "" ∧
    (disconnect s).1.nextStartTime = 0 ∧
    (disconnect s).1.isConnected = false ∧
    (disconnect s).1.isConnecting = false := by
  simp [disconnect, cleanup]

/-! ### C8: resource release on every exit path -/

/-- C8 (code bug): the microphone capture stream acquired by a successful
`connect` is never released: `cleanup` leaves `micStreamLive` untouched
for every state and never performs a `stopMicStream` action, so after
connect followed by disconnect the capture stream is still live.  The
stream is a local variable of `connect` in the source, unreachable from
`cleanup`. -/
theorem mic_stream_never_released :
    (connect goodEnv emptyCfg initState).1.micStreamLive = true ∧
    (disconnect (connect goodEnv emptyCfg initState).1).1.micStreamLive = true ∧
    (∀ s : HookState, (cleanup s).1.micStreamLive = s.micStreamLive) ∧
    (∀ s : HookState, Ev.stopMicStream ∉ (cleanup s).2) := by
  refine ⟨rfl, rfl, fun s => rfl, ?_⟩
  intro s
  cases hin : s.inputCtx <;> cases hout : s.outputCtx <;> cases hsess : s.currentSession <;>
    simp [cleanup, hin, hout, hsess, List.mem_map]

/-! ### C9: early error detection without partial state -/

/-- An environment where the microphone permission is denied. -/
def deniedEnv : Env :=
  { hasApiKey := true, hasMediaDevices := true, hasAudioContextClass := true
  , userMedia := MicRes.notAllowed }

/-- Counterexample to C9 as stated: on a permission-denied environment the
trace of `connect` acquires the input and output audio contexts before
the device error is set, so the device error is not detected before any
resource is acquired. -/
theorem device_error_detected_after_acquisition :
    (connect deniedEnv emptyCfg initState).2 =
      [Ev.acquireInputCtx 0, Ev.acquireOutputCtx 1, Ev.errorSet ErrMsg.micDenied,
       Ev.closeInputCtx 0, Ev.closeOutputCtx 1] ∧
    (connect deniedEnv emptyCfg initState).1.error = some ErrMsg.micDenied := by
  exact ⟨rfl, rfl⟩

/-- Recognizes a resource-acquisition event. -/
def isAcquireEv : Ev → Bool := fun e =>
  match e with
  | Ev.acquireInputCtx _ => true
  | Ev.acquireOutputCtx _ => true
  | Ev.acquireMicStream => true
  | Ev.openSession _ => true
  | _ => false

/-- C9 (amended): on every failing environment `connect` aborts with a
categorized error and no partial state — no contexts, no stream, no
session left allocated; the config error (missing API key) and the
unsupported-API errors are additionally detected before any resource is
acquired (no acquisition event at all), whereas the device errors from
the microphone request are detected only after the audio contexts were
created, with the catch-path cleanup releasing them. -/
theorem config_and_device_errors_abort_clean (env : Env) (cfg : Config)
    (hfail : env.hasApiKey = false ∨ env.hasMediaDevices = false ∨
             env.hasAudioContextClass = false ∨ env.userMedia ≠ MicRes.ok) :
    (connect env cfg initState).1.error.isSome ∧
    (connect env cfg initState).1.inputCtx = none ∧
    (connect env cfg initState).1.outputCtx = none ∧
    (connect env cfg initState).1.micStreamLive = false ∧
    (connect env cfg initState).1.sessionPromise = none ∧
    (connect env cfg initState).1.currentSession = none ∧
    ((env.hasApiKey = false ∨ env.hasMediaDevices = false ∨ env.hasAudioContextClass = false) →
      (connect env cfg initState).2.countP isAcquireEv = 0) := by
  obtain ⟨k, md, ac, um⟩ := env
  cases k <;> cases md <;> cases ac <;> cases um <;>
    simp_all [connect, catchPath, cleanup, initState, isAcquireEv]

/-- Witness for C9 (amended): the permission-denied environment aborts
with a categorized error and no partial state. -/
theorem config_and_device_errors_abort_clean_witness :
    (deniedEnv.hasApiKey = false ∨ deniedEnv.hasMediaDevices = false ∨
     deniedEnv.hasAudioContextClass = false ∨ deniedEnv.userMedia ≠ MicRes.ok) ∧
    (connect deniedEnv emptyCfg initState).1.error.isSome ∧
    (connect deniedEnv emptyCfg initState).1.inputCtx = none ∧
    (connect deniedEnv emptyCfg initState).1.micStreamLive = false :=
  have h := config_and_device_errors_abort_clean deniedEnv emptyCfg
    (Or.inr (Or.inr (Or.inr (by decide))))
  ⟨Or.inr (Or.inr (Or.inr (by decide))), h.1, h.2.1, h.2.2.2.1⟩

/-! ### C10: the photoContext field is never read -/

/-- Replaces the `photoContext` field of a configuration. -/
def setPhoto (cfg : Config) (p : Option String) : Config :=
  { cfg with photoContext := p }

/-- Erases the `photoContext` field inside the stored config snapshot of
a state, the only place the field ever reaches. -/
def erasePhotoState (s : HookState) : HookState :=
  { s with configRef := { s.configRef with photoContext := none } }

/-- C10: two configurations differing only in `photoContext` produce the
identical connection request, the identical `connect` trace in every
environment, and identical resulting states apart from the stored config
snapshot itself (the field is stored but never read; `onmessage`,
`cleanup` and `audioFrameEvent` take no configuration input at all). -/
theorem photo_context_never_read (cfg : Config) (p : Option String) (env : Env) (s : HookState) :
    buildLiveRequest (setPhoto cfg p) = buildLiveRequest cfg ∧
    (connect env (setPhoto cfg p) s).2 = (connect env cfg s).2 ∧
    erasePhotoState (connect env (setPhoto cfg p) s).1 =
      erasePhotoState (connect env cfg s).1 := by
  have hreq : buildLiveRequest (setPhoto cfg p) = buildLiveRequest cfg := by
    simp [buildLiveRequest, setPhoto]
  obtain ⟨k, md, ac, um⟩ := env
  refine ⟨hreq, ?_, ?_⟩ <;>
    cases k <;> cases md <;> cases ac <;> cases um <;>
      simp [connect, catchPath, cleanup, erasePhotoState, setPhoto,
        buildLiveRequest, orElseNonEmpty]
